import Mathlib

/-!
# Formal model of `beerstates.py`

A shallow embedding of the persistence and status-toggle logic of
`beerstates.py`, a small CLI that tracks per-US-state "had beer" status in a
JSON file and renders a choropleth map.

Modelling conventions:

* Python values that can appear in the parsed JSON data file are modelled by
  `PyVal` (strings, ints, bools, `None`, lists, and dicts with string keys —
  JSON object keys are always strings, and Python dicts built by this program
  have unique keys).
* The data file `states_data.json` is modelled by `FileState`: absent
  (`os.path.exists` false), present but unparseable (`json.JSONDecodeError`),
  or present and parsed to a `PyVal`.  `json.dump` followed by `json.load` is
  the identity on the str/list/dict values this program writes, so saving is
  modelled as storing the parsed value directly.
* Uncaught Python exceptions are modelled by `Except PyErr`; `PyErr` covers
  the exception classes reachable in the modelled code paths.
* `print` output is collected in a `List String`.  Messages that interpolate
  exception text or `repr` of a list are modelled by their constant prefix;
  no property below depends on message payloads, only on which messages are
  emitted.
* The map-rendering calls (`create_map`, `load_geographic_data`,
  `plot_states`, `add_legend`, `plt.show`) are external matplotlib/cartopy
  effects; reaching them is modelled by the `MainOutcome.rendered` outcome.
  The one piece of logic in `add_statistics` — the progress numbers — is
  modelled exactly, with Python's float division taken as exact rational
  division.
-/

/-- A Python value as produced by `json.load` (and consumed by `json.dump`). -/
inductive PyVal where
  | str (s : String)
  | int (n : Int)
  | bool (b : Bool)
  | none
  | list (xs : List PyVal)
  | dict (kvs : List (String × PyVal))

/-- The Python exception classes reachable in the modelled code paths:
`TypeError` (subscripting / membership-testing a value of the wrong type),
`KeyError` (missing dict key), `AttributeError` (calling `.remove` on a
non-list). -/
inductive PyErr where
  | typeError
  | keyError
  | attributeError
deriving DecidableEq, Repr

mutual

/-- Structural equality of `PyVal`s, modelling Python `==` on JSON values. -/
def PyVal.beq : PyVal → PyVal → Bool
  | .str a, .str b => a == b
  | .int a, .int b => a == b
  | .bool a, .bool b => a == b
  | .none, .none => true
  | .list xs, .list ys => beqList xs ys
  | .dict kvs, .dict lvs => beqKVList kvs lvs
  | _, _ => false

/-- Pointwise `PyVal.beq` on lists. -/
def beqList : List PyVal → List PyVal → Bool
  | [], [] => true
  | x :: xs, y :: ys => PyVal.beq x y && beqList xs ys
  | _, _ => false

/-- Pointwise `PyVal.beq` on key-value lists. -/
def beqKVList : List (String × PyVal) → List (String × PyVal) → Bool
  | [], [] => true
  | (k, v) :: xs, (l, w) :: ys => k == l && PyVal.beq v w && beqKVList xs ys
  | _, _ => false

end

instance : BEq PyVal := ⟨PyVal.beq⟩

theorem pyval_beq_iff : ∀ a b : PyVal, PyVal.beq a b = true ↔ a = b := by
  refine PyVal.beq.induct
    (fun a b => PyVal.beq a b = true ↔ a = b)
    (fun xs ys => beqKVList xs ys = true ↔ xs = ys)
    (fun xs ys => beqList xs ys = true ↔ xs = ys)
    ?_ ?_ ?_ ?_ ?_ ?_ ?_ ?_ ?_ ?_ ?_ ?_ ?_
  · intro a b; simp [PyVal.beq]
  · intro a b; simp [PyVal.beq]
  · intro a b; simp [PyVal.beq]
  · simp [PyVal.beq]
  · intro xs ys ih; simpa [PyVal.beq] using ih
  · intro kvs lvs ih; simpa [PyVal.beq] using ih
  · intro t x h1 h2 h3 h4 h5 h6
    cases t <;> cases x <;>
      first
        | (exact absurd rfl (fun h => h1 _ _ h rfl))
        | simp_all [PyVal.beq]
  · simp [beqList]
  · intro x xs y ys ih1 ih2; simp [beqList, ih1, ih2]
  · intro t x h1 h2
    match t, x with
    | [], [] => exact absurd rfl (h1 rfl)
    | [], _ :: _ => simp [beqList]
    | _ :: _, [] => simp [beqList]
    | a :: as_, b :: bs => exact (h2 a as_ b bs rfl rfl).elim
  · simp [beqKVList]
  · intro k v xs l w ys ih1 ih2; simp [beqKVList, ih1, ih2, and_assoc]
  · intro t x h1 h2
    match t, x with
    | [], [] => exact absurd rfl (h1 rfl)
    | [], _ :: _ => simp [beqKVList]
    | _ :: _, [] => simp [beqKVList]
    | (k, v) :: xs, (l, w) :: ys => exact (h2 k v xs l w ys rfl rfl).elim

instance : LawfulBEq PyVal where
  eq_of_beq h := (pyval_beq_iff _ _).mp h
  rfl := (pyval_beq_iff _ _).mpr rfl

instance : DecidableEq PyVal := fun a b =>
  decidable_of_iff (PyVal.beq a b = true) (pyval_beq_iff a b)

/-- The state of the data file `states_data.json` on disk. -/
inductive FileState where
  | missing
  | corrupt
  | parsed (v : PyVal)
deriving DecidableEq

/-- A Python list of strings, as a `PyVal`. -/
def strList (l : List String) : PyVal := .list (l.map .str)

/-- First value bound to `key`, modelling lookup in a Python dict (dicts built
by this program, and by `json.load`, have unique keys). -/
def lookupKey : List (String × PyVal) → String → Option PyVal
  | [], _ => Option.none
  | (k, v) :: rest, key => if k = key then some v else lookupKey rest key

/-- Python subscripting `container[key]` with a string key: a dict yields the
value or raises `KeyError`; every other JSON value raises `TypeError`. -/
def PyVal.getItem (container : PyVal) (key : String) : Except PyErr PyVal :=
  match container with
  | .dict kvs =>
    match lookupKey kvs key with
    | some v => .ok v
    | Option.none => .error .keyError
  | _ => .error .typeError

/-- Bool test: `pat` occurs as a contiguous substring of `s` (Python
`pat in s` on strings), on character lists. -/
def charSub : List Char → List Char → Bool
  | pat, [] => pat.isEmpty
  | pat, c :: rest => pat.isPrefixOf (c :: rest) || charSub pat rest

/-- Python membership `x in container`: equality scan for lists, key scan for
dicts, substring test for strings, `TypeError` otherwise. -/
def pyContains (container x : PyVal) : Except PyErr Bool :=
  match container with
  | .list xs => .ok (xs.contains x)
  | .dict kvs => .ok (kvs.any fun p => PyVal.str p.1 == x)
  | .str s =>
    match x with
    | .str t => .ok (charSub t.toList s.toList)
    | _ => .error .typeError
  | _ => .error .typeError

/-- Python iteration `for x in v`: the elements of a list, the characters of a
string (as one-character strings), the keys of a dict; `TypeError` on
non-iterable values. -/
def pyIter : PyVal → Except PyErr (List PyVal)
  | .list xs => .ok xs
  | .str s => .ok (s.toList.map fun c => .str (String.mk [c]))
  | .dict kvs => .ok (kvs.map fun p => .str p.1)
  | _ => .error .typeError

/-- Python `str.upper()`, restricted to the ASCII range actually used by state
codes. -/
def pyUpper (s : String) : String := String.mk (s.data.map Char.toUpper)

/-- Name of the data file (`DATA_FILE` in the source). -/
def DATA_FILE : String := "states_data.json"

/-- The hardcoded default `states` list built in `load_states_data`
(51 entries: the 50 US states plus DC). -/
def defaultStates : List String :=
  ["AL", "AK", "AZ", "AR", "CA", "CO", "CT", "DC", "DE", "FL", "GA",
   "HI", "ID", "IL", "IN", "IA", "KS", "KY", "LA", "ME", "MD",
   "MA", "MI", "MN", "MS", "MO", "MT", "NE", "NV", "NH", "NJ",
   "NM", "NY", "NC", "ND", "OH", "OK", "OR", "PA", "RI", "SC",
   "SD", "TN", "TX", "UT", "VT", "VA", "WA", "WV", "WI", "WY"]

/-- The hardcoded default `not_had` list built in `load_states_data`. -/
def defaultNotHad : List String := ["AL", "AK", "KS", "MS", "NE", "SD"]

/-- The two messages printed when reading the data file raises a caught
`json.JSONDecodeError` or `KeyError` (the first interpolates the exception
text, modelled here by its constant prefix). -/
def readErrMsgs : List String :=
  ["Error reading " ++ DATA_FILE, "Using default data..."]

/-- `load_states_data()`.  If the file exists it is opened and parsed; a parse
failure or a missing `'states'`/`'not_had'` key is caught and falls through to
the hardcoded defaults with two messages printed.  Subscripting a parsed
non-dict value raises an uncaught `TypeError`.  A missing file falls through
to the defaults silently. -/
def load_states_data (fs : FileState) :
    Except PyErr ((PyVal × PyVal) × List String) :=
  match fs with
  | .missing => .ok ((strList defaultStates, strList defaultNotHad), [])
  | .corrupt => .ok ((strList defaultStates, strList defaultNotHad), readErrMsgs)
  | .parsed v =>
    match v.getItem "states" with
    | .error .keyError =>
      .ok ((strList defaultStates, strList defaultNotHad), readErrMsgs)
    | .error e => .error e
    | .ok s =>
      match v.getItem "not_had" with
      | .error .keyError =>
        .ok ((strList defaultStates, strList defaultNotHad), readErrMsgs)
      | .error e => .error e
      | .ok n => .ok ((s, n), [])

/-- `save_states_data(states, not_had)`: writes
`{'states': states, 'not_had': not_had}` to the data file as JSON and prints a
confirmation.  The write is modelled as succeeding (the source catches and
logs write failures; no property below concerns them). -/
def save_states_data (states not_had : PyVal) : FileState × List String :=
  (.parsed (.dict [("states", states), ("not_had", not_had)]),
   ["Data saved to " ++ DATA_FILE])

/-- The list comprehension in `validate_states`:
`[state for state in not_had if state not in states]`, over an already
obtained element list, propagating a `TypeError` from `state not in states`. -/
def invalidOf (states : PyVal) : List PyVal → Except PyErr (List PyVal)
  | [] => .ok []
  | x :: rest =>
    match pyContains states x with
    | .error e => .error e
    | .ok b =>
      match invalidOf states rest with
      | .error e => .error e
      | .ok r => .ok (if b then r else x :: r)

/-- `validate_states(states, not_had)`: collects the `not_had` entries absent
from `states`; if any, prints a warning (which interpolates the list, modelled
by its constant prefix) and returns `False`, else returns `True`. -/
def validate_states (states not_had : PyVal) :
    Except PyErr (Bool × List String) :=
  match pyIter not_had with
  | .error e => .error e
  | .ok items =>
    match invalidOf states items with
    | .error e => .error e
    | .ok invalid_states =>
      if !invalid_states.isEmpty then
        .ok (false, ["Warning: Invalid states in not_had list:"])
      else
        .ok (true, [])

/-- `mark_state_completed(state_code)`: reloads the record from the file; if
`state_code` is in `not_had`, removes its first occurrence (Python
`list.remove`) and saves, else prints that it was already completed and leaves
the file untouched.  A `True` membership test on a non-list `not_had` would
reach `.remove` and raise `AttributeError`. -/
def mark_state_completed (state_code : String) (fs : FileState) :
    Except PyErr (FileState × List String) :=
  match load_states_data fs with
  | .error e => .error e
  | .ok ((states, not_had), out) =>
    match pyContains not_had (.str state_code) with
    | .error e => .error e
    | .ok true =>
      match not_had with
      | .list xs =>
        let xs' := xs.erase (.str state_code)
        let (fs', saveOut) := save_states_data states (.list xs')
        .ok (fs', out ++ saveOut ++ ["Marked " ++ state_code ++ " as completed!"])
      | _ => .error .attributeError
    | .ok false =>
      .ok (fs, out ++ [state_code ++ " was already marked as completed."])

/-- The numbers computed by `add_statistics(ax, states, not_had)`:
`total_states`, `completed`, and the percentage `(completed/total_states)*100`
(Python float division, modelled as exact rational division).  The matplotlib
text-drawing call is an external effect. -/
def add_statistics (states not_had : List PyVal) : Int × Int × ℚ :=
  let total_states : Int := states.length
  let completed : Int := total_states - not_had.length
  (total_states, completed, ((completed : ℚ) / (total_states : ℚ)) * 100)

/-- The lines printed by the `--help` branch of `main`. -/
def usageLines : List String :=
  ["Usage:",
   "  python beerstates.py              # Show map",
   "  python beerstates.py --complete STATE  # Mark state as completed",
   "  python beerstates.py --help       # Show this help"]

/-- How a run of `main` ends, beyond its printed output and the final file
state: returned after `mark_state_completed`, returned after `--help`,
aborted with `sys.exit(1)` after failed validation, or proceeded to the
map-rendering calls. -/
inductive MainOutcome where
  | completed (fs : FileState)
  | helpShown
  | exitInvalid
  | rendered (fs : FileState)

/-- The tail of `main` past the argument handling: `validate_states` then
either `sys.exit(1)` or the rendering calls. -/
def validateAndRender (states not_had : PyVal) (out0 : List String)
    (fs : FileState) : Except PyErr (MainOutcome × List String) :=
  match validate_states states not_had with
  | .error e => .error e
  | .ok (ok_, vout) =>
    if ok_ then .ok (.rendered fs, out0 ++ vout)
    else .ok (.exitInvalid, out0 ++ vout)

/-- `main()`, as a function of `sys.argv` and the data-file state: loads the
record, handles `--complete <STATE>` (uppercasing the argument) and `--help`,
and otherwise validates and renders.  (Named `mainRun` because Lean reserves
`main` for an IO entry point.) -/
def mainRun (argv : List String) (fs : FileState) :
    Except PyErr (MainOutcome × List String) :=
  match load_states_data fs with
  | .error e => .error e
  | .ok ((states, not_had), out0) =>
    if 1 < argv.length then
      if argv.getD 1 "" = "--complete" ∧ 2 < argv.length then
        match mark_state_completed (pyUpper (argv.getD 2 "")) fs with
        | .error e => .error e
        | .ok (fs', out1) => .ok (.completed fs', out0 ++ out1)
      else if argv.getD 1 "" = "--help" then
        .ok (.helpShown, out0 ++ usageLines)
      else
        validateAndRender states not_had out0 fs
    else
      validateAndRender states not_had out0 fs

/-- The file state holding a well-formed record: a JSON object with `states`
and `not_had` both lists of strings. -/
def recordFile (states not_had : List String) : FileState :=
  .parsed (.dict [("states", strList states), ("not_had", strList not_had)])

/-! ## Helper lemmas -/

theorem str_injective : Function.Injective PyVal.str := by
  intro a b h
  injection h

theorem str_beq (c a : String) : (PyVal.str c == PyVal.str a) = (c == a) := rfl

theorem strList_contains (n : List String) (c : String) :
    (n.map PyVal.str).contains (PyVal.str c) = n.contains c := by
  induction n with
  | nil => rfl
  | cons a t ih => simp [List.contains_cons, str_beq, ih]

theorem strList_erase (n : List String) (c : String) :
    (n.map PyVal.str).erase (PyVal.str c) = (n.erase c).map PyVal.str := by
  induction n with
  | nil => rfl
  | cons a t ih =>
    cases hac : a == c <;> simp [List.erase_cons, str_beq, hac, ih]

theorem load_recordFile (s n : List String) :
    load_states_data (recordFile s n) = .ok ((strList s, strList n), []) := rfl

theorem mark_mem_eq (s n : List String) (code : String) (h : code ∈ n) :
    mark_state_completed code (recordFile s n) =
      .ok (recordFile s (n.erase code),
           ["Data saved to " ++ DATA_FILE,
            "Marked " ++ code ++ " as completed!"]) := by
  have hm : PyVal.str code ∈ n.map PyVal.str := List.mem_map_of_mem _ h
  unfold mark_state_completed
  rw [load_recordFile]
  simp [pyContains, strList, strList_erase, save_states_data, recordFile, hm]

theorem mark_not_mem_eq (s n : List String) (code : String) (h : code ∉ n) :
    mark_state_completed code (recordFile s n) =
      .ok (recordFile s n, [code ++ " was already marked as completed."]) := by
  have hm : PyVal.str code ∉ n.map PyVal.str := by simpa using h
  unfold mark_state_completed
  rw [load_recordFile]
  simp [pyContains, strList, recordFile, hm]

theorem invalidOf_list (ss : List PyVal) (xs : List PyVal) :
    invalidOf (.list ss) xs = .ok (xs.filter fun x => !(ss.contains x)) := by
  induction xs with
  | nil => rfl
  | cons a t ih =>
    cases hb : ss.contains a <;> simp [invalidOf, pyContains, ih, hb, List.filter_cons]

theorem validate_states_lists (ss ns : List PyVal) :
    validate_states (.list ss) (.list ns) =
      .ok (if (ns.filter fun x => !(ss.contains x)).isEmpty then (true, ([] : List String))
           else (false, ["Warning: Invalid states in not_had list:"])) := by
  simp only [validate_states, pyIter, invalidOf_list]
  cases (ns.filter fun x => !(ss.contains x)).isEmpty <;> simp

/-! ## Claims -/

/-- C1: for every record whose entries are strings, saving it with
`save_states_data` and then calling `load_states_data` on the resulting data
file returns a pair equal to the saved `(states, not_had)` (and the load
prints nothing). -/
theorem c1_save_load_round_trip (states not_had : List String) :
    load_states_data (save_states_data (strList states) (strList not_had)).1 =
      .ok ((strList states, strList not_had), []) := rfl

/-- C2 counterexample: on a stored record whose `not_had` contains `"AL"`
twice, the second `mark_state_completed "AL"` removes another occurrence,
rewrites the file, and takes the "Marked!" branch — not the
"already completed" branch — so the final `not_had` differs from a single
call. -/
theorem c2_counterexample :
    mark_state_completed "AL" (recordFile ["CA"] ["AL", "AL"]) =
      .ok (recordFile ["CA"] ["AL"],
           ["Data saved to states_data.json", "Marked AL as completed!"]) ∧
    mark_state_completed "AL" (recordFile ["CA"] ["AL"]) =
      .ok (recordFile ["CA"] [],
           ["Data saved to states_data.json", "Marked AL as completed!"]) ∧
    recordFile ["CA"] ([] : List String) ≠ recordFile ["CA"] ["AL"] ∧
    (["Data saved to states_data.json", "Marked AL as completed!"] : List String) ≠
      ["AL was already marked as completed."] :=
  ⟨rfl, rfl, by decide, by decide⟩

/-- C2 (amended): `mark_state_completed` is idempotent on every stored record
in which the code occurs at most once in `not_had` (in particular every
duplicate-free record): the second call leaves the file unchanged and takes
the "already completed" branch. -/
theorem c2_mark_completed_idempotent (states nh : List String) (code : String)
    (h : nh.count code ≤ 1) :
    ∃ fs₁ out₁,
      mark_state_completed code (recordFile states nh) = .ok (fs₁, out₁) ∧
      mark_state_completed code fs₁ =
        .ok (fs₁, [code ++ " was already marked as completed."]) := by
  by_cases hm : code ∈ nh
  · refine ⟨recordFile states (nh.erase code), _,
      mark_mem_eq states nh code hm, ?_⟩
    have h1 : nh.count code = 1 :=
      le_antisymm h (List.count_pos_iff.mpr hm)
    have h2 : (nh.erase code).count code = 0 := by
      rw [List.count_erase_self, h1]
    exact mark_not_mem_eq _ _ _ (List.count_eq_zero.mp h2)
  · exact ⟨recordFile states nh, _, mark_not_mem_eq states nh code hm,
      mark_not_mem_eq states nh code hm⟩

/-- C2 witness: idempotence at a concrete record. -/
theorem c2_witness :
    ∃ fs₁ out₁,
      mark_state_completed "AL" (recordFile ["CA"] ["AL"]) = .ok (fs₁, out₁) ∧
      mark_state_completed "AL" fs₁ =
        .ok (fs₁, ["AL" ++ " was already marked as completed."]) :=
  c2_mark_completed_idempotent ["CA"] ["AL"] "AL" (by decide)

/-- C3: for every pair of lists, `validate_states` returns `False` exactly
when some `not_had` entry is absent from `states` (and `True` otherwise). -/
theorem c3_validate_states_false_iff (states not_had : List PyVal) :
    ∃ b out, validate_states (.list states) (.list not_had) = .ok (b, out) ∧
      (b = false ↔ ∃ x ∈ not_had, x ∉ states) := by
  have key : (not_had.filter fun x => !(states.contains x)).isEmpty = true ↔
      ∀ x ∈ not_had, x ∈ states := by
    simp [List.isEmpty_iff, List.filter_eq_nil_iff]
  rw [validate_states_lists]
  by_cases hE : (not_had.filter fun x => !(states.contains x)).isEmpty
  · refine ⟨true, [], by rw [if_pos hE], ?_⟩
    refine iff_of_false (by simp) ?_
    rintro ⟨x, hx, hxn⟩
    exact hxn (key.mp hE x hx)
  · refine ⟨false, _, by rw [if_neg hE], ?_⟩
    have hne : (not_had.filter fun x => !(states.contains x)) ≠ [] := by
      intro hnil
      rw [List.isEmpty_iff] at hE
      exact hE hnil
    obtain ⟨x, hx⟩ := List.exists_mem_of_ne_nil _ hne
    have hx' := List.mem_filter.mp hx
    exact iff_of_true rfl ⟨x, hx'.1, by simpa using hx'.2⟩

/-- C4 counterexample: on a missing data file, `load_states_data` returns the
hardcoded defaults with an empty output (no warning is printed), and the
hardcoded default `states` list has 51 entries — it is not a 50-state list. -/
theorem c4_counterexample :
    load_states_data .missing =
      .ok ((strList defaultStates, strList defaultNotHad), []) ∧
    defaultStates.length = 51 ∧ (51 : Nat) ≠ 50 :=
  ⟨rfl, rfl, by decide⟩

/-- C4 (amended): when the data file is missing, `load_states_data` returns
exactly the hardcoded 51-entry default `states` list (the 50 states plus DC)
and the 6-entry default `not_had` list, and prints nothing. -/
theorem c4_load_missing_defaults :
    load_states_data .missing =
      .ok ((strList defaultStates, strList defaultNotHad), []) ∧
    defaultStates.length = 51 ∧
    defaultNotHad = ["AL", "AK", "KS", "MS", "NE", "SD"] ∧
    defaultNotHad.length = 6 :=
  ⟨rfl, rfl, rfl, rfl⟩

theorem mainRun_complete_mem (prog st : String) (states nh : List String)
    (hm : pyUpper st ∈ nh) :
    mainRun [prog, "--complete", st] (recordFile states nh) =
      .ok (.completed (recordFile states (nh.erase (pyUpper st))),
           ["Data saved to " ++ DATA_FILE,
            "Marked " ++ pyUpper st ++ " as completed!"]) := by
  unfold mainRun
  rw [load_recordFile]
  simp [List.getD_cons_succ, List.getD_cons_zero, mark_mem_eq states nh _ hm]

theorem mainRun_complete_not_mem (prog st : String) (states nh : List String)
    (hm : pyUpper st ∉ nh) :
    mainRun [prog, "--complete", st] (recordFile states nh) =
      .ok (.completed (recordFile states nh),
           [pyUpper st ++ " was already marked as completed."]) := by
  unfold mainRun
  rw [load_recordFile]
  simp [List.getD_cons_succ, List.getD_cons_zero, mark_not_mem_eq states nh _ hm]

theorem validateAndRender_invalid (states nh : List String) (out0 : List String)
    (fs : FileState) (h : ∃ c ∈ nh, c ∉ states) :
    validateAndRender (strList states) (strList nh) out0 fs =
      .ok (.exitInvalid, out0 ++ ["Warning: Invalid states in not_had list:"]) := by
  obtain ⟨c, hc, hcs⟩ := h
  have h1 : PyVal.str c ∈
      (nh.map PyVal.str).filter fun x => !((states.map PyVal.str).contains x) := by
    rw [List.mem_filter]
    exact ⟨List.mem_map_of_mem _ hc, by simpa using hcs⟩
  have hfil : ((nh.map PyVal.str).filter
      fun x => !((states.map PyVal.str).contains x)).isEmpty = false := by
    cases hE : ((nh.map PyVal.str).filter
        fun x => !((states.map PyVal.str).contains x)).isEmpty
    · rfl
    · rw [List.isEmpty_iff.mp hE] at h1
      exact absurd h1 (List.not_mem_nil _)
  unfold validateAndRender
  simp only [strList]
  rw [validate_states_lists, hfil]
  simp

/-- C5: the CLI `--complete` handler uppercases its argument and persists the
change: from the stored record with
`not_had = ["AL","AK","KS","MS","NE","SD"]`, running
`--complete al` rewrites the file with `not_had = ["AK","KS","MS","NE","SD"]`
and returns without any rendering. -/
theorem c5_cli_complete_case_insensitive :
    mainRun ["beerstates.py", "--complete", "al"]
        (recordFile defaultStates defaultNotHad) =
      .ok (.completed (recordFile defaultStates ["AK", "KS", "MS", "NE", "SD"]),
           ["Data saved to states_data.json", "Marked AL as completed!"]) := rfl

/-- C6: for every code absent from the stored `not_had` list — including codes
that are in no `states` list at all — `mark_state_completed` only prints the
"already completed" message: the stored record is returned unchanged and the
file is not rewritten (no save, no "Data saved" message). -/
theorem c6_mark_unknown_code_noop (states not_had : List String) (code : String)
    (h : code ∉ not_had) :
    mark_state_completed code (recordFile states not_had) =
      .ok (recordFile states not_had,
           [code ++ " was already marked as completed."]) :=
  mark_not_mem_eq states not_had code h

/-- C6 witness: `"ZZ"` is in neither the default `not_had` nor the default
`states`. -/
theorem c6_witness :
    mark_state_completed "ZZ" (recordFile defaultStates defaultNotHad) =
      .ok (recordFile defaultStates defaultNotHad,
           ["ZZ" ++ " was already marked as completed."]) :=
  c6_mark_unknown_code_noop defaultStates defaultNotHad "ZZ" (by decide)

/-- C7: the percentage computed (and then displayed) by `add_statistics` is
`(len(states) - len(not_had)) / len(states) * 100`; in particular it is 88
for 50 states with 6 in `not_had`. -/
theorem c7_percentage_formula (states not_had : List PyVal) (h : states ≠ []) :
    (add_statistics states not_had).2.2 =
      (((states.length : ℚ) - (not_had.length : ℚ)) / (states.length : ℚ)) * 100 ∧
    (states.length = 50 → not_had.length = 6 →
      (add_statistics states not_had).2.2 = 88) := by
  constructor
  · simp only [add_statistics]
    push_cast
    ring
  · intro h50 h6
    simp only [add_statistics, h50, h6]
    norm_num

/-- C7 witness: 50 states with 6 not had give exactly 88. -/
theorem c7_witness :
    (add_statistics (List.replicate 50 (PyVal.str "TX"))
        (List.replicate 6 (PyVal.str "AL"))).2.2 = 88 :=
  (c7_percentage_formula _ _ (by simp)).2 (by simp) (by simp)

/-- C8 counterexample: a data file whose content parses to the JSON value `3`
(wrong shape: not an object) makes `load_states_data` raise an uncaught
`TypeError` at `data['states']` instead of falling back to the defaults. -/
theorem c8_counterexample :
    load_states_data (.parsed (.int 3)) = .error .typeError := rfl

/-- C8 (amended): `load_states_data` returns a record without raising when the
data file is missing, when its content is unparseable JSON, or when it parses
to a JSON object (whatever its keys); but a parseable top-level non-object
raises an uncaught `TypeError`. -/
theorem c8_load_no_abort_on_handled_shapes (kvs : List (String × PyVal)) :
    (∃ r, load_states_data .missing = .ok r) ∧
    (∃ r, load_states_data .corrupt = .ok r) ∧
    (∃ r, load_states_data (.parsed (.dict kvs)) = .ok r) := by
  refine ⟨⟨_, rfl⟩, ⟨_, rfl⟩, ?_⟩
  unfold load_states_data PyVal.getItem
  cases h1 : lookupKey kvs "states" <;> cases h2 : lookupKey kvs "not_had" <;>
    simp [h1, h2]

/-- C9: on a stored record whose `not_had` contains a code absent from
`states`, running with no CLI arguments validates, fails, and exits with code
1, while running `--complete <STATE>` (for any argument) never reaches the
validation: it always returns the `completed` outcome, never the
`exitInvalid` one. -/
theorem c9_exit_only_on_render_path (states not_had : List String)
    (st : String) (h : ∃ c ∈ not_had, c ∉ states) :
    (∃ out, mainRun ["beerstates.py"] (recordFile states not_had) =
        .ok (.exitInvalid, out)) ∧
    (∃ fs' out,
        mainRun ["beerstates.py", "--complete", st] (recordFile states not_had) =
          .ok (.completed fs', out)) := by
  constructor
  · refine ⟨["Warning: Invalid states in not_had list:"], ?_⟩
    unfold mainRun
    rw [load_recordFile]
    simpa using validateAndRender_invalid states not_had []
      (recordFile states not_had) h
  · by_cases hm : pyUpper st ∈ not_had
    · exact ⟨_, _, mainRun_complete_mem _ _ _ _ hm⟩
    · exact ⟨_, _, mainRun_complete_not_mem _ _ _ _ hm⟩

/-- C9 witness: a record with the invalid code `"XX"` in `not_had`. -/
theorem c9_witness :
    (∃ out, mainRun ["beerstates.py"] (recordFile ["CA"] ["XX"]) =
        .ok (.exitInvalid, out)) ∧
    (∃ fs' out,
        mainRun ["beerstates.py", "--complete", "al"] (recordFile ["CA"] ["XX"]) =
          .ok (.completed fs', out)) :=
  c9_exit_only_on_render_path ["CA"] ["XX"] "al" (by decide)

/-- C10: when `code` occurs in the stored `not_had`, `mark_state_completed`
leaves the `states` list untouched and removes exactly the first occurrence
of `code` from `not_had`, keeping every other entry (later duplicates
included) in their relative order. -/
theorem c10_mark_removes_first_occurrence (states not_had : List String)
    (code : String) (h : code ∈ not_had) :
    ∃ l₁ l₂, not_had = l₁ ++ code :: l₂ ∧ code ∉ l₁ ∧
      mark_state_completed code (recordFile states not_had) =
        .ok (recordFile states (l₁ ++ l₂),
             ["Data saved to " ++ DATA_FILE,
              "Marked " ++ code ++ " as completed!"]) := by
  obtain ⟨l₁, l₂, hnotin, hsplit, herase⟩ := List.exists_erase_eq h
  refine ⟨l₁, l₂, hsplit, hnotin, ?_⟩
  rw [mark_mem_eq states not_had code h, herase]

/-- C10 witness: marking `"AL"` on `not_had = ["AL", "ZZ", "AL"]` removes only
the first `"AL"`. -/
theorem c10_witness :
    ∃ l₁ l₂, (["AL", "ZZ", "AL"] : List String) = l₁ ++ "AL" :: l₂ ∧ "AL" ∉ l₁ ∧
      mark_state_completed "AL" (recordFile ["CA"] ["AL", "ZZ", "AL"]) =
        .ok (recordFile ["CA"] (l₁ ++ l₂),
             ["Data saved to " ++ DATA_FILE,
              "Marked " ++ "AL" ++ " as completed!"]) :=
  c10_mark_removes_first_occurrence ["CA"] ["AL", "ZZ", "AL"] "AL" (by decide)
